import Mathlib

/-!
# search-api: the two HTTP handlers of `search-api/main.go`

A shallow embedding of `createDocumentsEndpoint`, `searchEndpoint` and
`errorResponse`.  Everything the handlers reach through a library (the gin
context, the elastic client, shortid, the clock, `encoding/json`) is either a
small executable model of the library call or a field of the environment
`Env`; a handler returns the response it writes together with the list of
engine calls it made.
-/

set_option autoImplicit false

namespace SearchApi

/-! ## Constants and data model (main.go, lines 16-48) -/

/-- The index used for every engine call (`elasticIndexName`). -/
def elasticIndexName : String := "documents"

/-- The document type used for bulk writes (`elasticTypeName`). -/
def elasticTypeName : String := "document"

/-- A `time.Time` instant, counted in nanoseconds from the zero instant of the
type (January 1 of year 1, UTC). -/
structure Timestamp where
  nanos : Nat
deriving DecidableEq, Repr

/-- The zero value of `time.Time`. -/
def Timestamp.zero : Timestamp := ⟨0⟩

/-- The struct `Document` (JSON keys `id`, `title`, `created_at`, `content`). -/
structure Document where
  ID : String
  Title : String
  CreatedAt : Timestamp
  Content : String
deriving DecidableEq, Repr

/-- The struct `DocumentRequest` (JSON keys `title`, `content`). -/
structure DocumentRequest where
  Title : String
  Content : String
deriving DecidableEq, Repr

/-- The struct `DocumentResponse` (JSON keys `title`, `created_at`, `content`). -/
structure DocumentResponse where
  Title : String
  CreatedAt : Timestamp
  Content : String
deriving DecidableEq, Repr

/-- The zero value of `DocumentResponse`, what `var doc DocumentResponse` holds. -/
def DocumentResponse.zero : DocumentResponse :=
  { Title := "", CreatedAt := Timestamp.zero, Content := "" }

/-- A Go slice: `none` is the nil slice, `some xs` a non-nil slice holding `xs`. -/
abbrev Slice (α : Type) := Option (List α)

/-- The call `make([]T, 0)`: a non-nil slice of length zero. -/
def Slice.make0 {α : Type} : Slice α := some []

/-- The builtin `append(s, x)`; appending to the nil slice allocates. -/
def Slice.append {α : Type} (s : Slice α) (x : α) : Slice α :=
  match s with
  | none => some [x]
  | some xs => some (xs ++ [x])

/-- The struct `SearchResponse` (JSON keys `time`, `hits`, `documents`). -/
structure SearchResponse where
  Time : String
  Hits : String
  Documents : Slice DocumentResponse
deriving DecidableEq, Repr

/-! ## JSON values written to the client -/

/-- The JSON values the handlers can write. `time t` stands for the JSON string
holding the RFC 3339 text of `t`. -/
inductive Json where
  | null
  | str (s : String)
  | time (t : Timestamp)
  | arr (xs : List Json)
  | obj (kvs : List (String × Json))

/-- The keys of a JSON object, in the order they are written. -/
def Json.keys : Json → List String
  | .obj kvs => kvs.map Prod.fst
  | _ => []

/-- The encoding of a `DocumentResponse` by `encoding/json`: one key per struct
field, named by its tag, in declaration order. -/
def DocumentResponse.toJson (d : DocumentResponse) : Json :=
  .obj [("title", .str d.Title), ("created_at", .time d.CreatedAt), ("content", .str d.Content)]

/-- The encoding of a slice: `null` for the nil slice, an array otherwise. -/
def Slice.toJson {α : Type} (f : α → Json) : Slice α → Json
  | none => .null
  | some xs => .arr (xs.map f)

/-- The encoding of a `SearchResponse` by `encoding/json`. -/
def SearchResponse.toJson (r : SearchResponse) : Json :=
  .obj [("time", .str r.Time), ("hits", .str r.Hits),
        ("documents", Slice.toJson DocumentResponse.toJson r.Documents)]

/-- The map literal `gin.H` with string values. -/
def H (kvs : List (String × String)) : Json :=
  .obj (kvs.map (fun kv => (kv.1, Json.str kv.2)))

/-! ## The gin context -/

def StatusOK : Nat := 200
def StatusBadRequest : Nat := 400
def StatusInternalServerError : Nat := 500

/-- What a handler leaves in the response writer: a status code and a body
(`none` when only the status was set). -/
structure Response where
  code : Nat
  body : Option Json

/-- The request side of `*gin.Context`: the URL query pairs in the order they
appear in the URL, and the raw request body. -/
structure Context where
  queryPairs : List (String × String)
  body : String

/-- The method `c.GetQuery(key)`: the first value given for `key`, if any. -/
def Context.GetQuery (c : Context) (key : String) : Option String :=
  c.queryPairs.lookup key

/-- The method `c.Query(key)`: the first value given for `key`, or the empty string. -/
def Context.Query (c : Context) (key : String) : String :=
  match c.GetQuery key with
  | some v => v
  | none => ""

/-- The method `c.JSON(code, obj)`. -/
def JSON (code : Nat) (obj : Json) : Response := { code := code, body := some obj }

/-- The method `c.Status(code)`. -/
def Status (code : Nat) : Response := { code := code, body := none }

/-! ## Library calls with an executable model -/

/-- The value of a run of decimal digits, most significant first. -/
def digitsValue (ds : List Char) : Nat :=
  ds.foldl (fun n ch => n * 10 + (ch.toNat - '0'.toNat)) 0

/-- The call `strconv.Atoi(s)` for a 64-bit `int`: an optional sign followed by
one or more decimal digits, whose value must lie in `[-2^63, 2^63 - 1]`. The
error case carries the reason; the handlers only test it against nil. -/
def Atoi (s : String) : Except String Int :=
  let cs := s.toList
  let neg := cs.head? = some '-'
  let ds := match cs with
    | '-' :: r => r
    | '+' :: r => r
    | _ => cs
  if ds = [] then .error "invalid syntax"
  else if ds.all Char.isDigit = false then .error "invalid syntax"
  else
    let n := digitsValue ds
    if neg then
      if n ≤ 2 ^ 63 then .ok (-(n : Int)) else .error "value out of range"
    else
      if n < 2 ^ 63 then .ok (n : Int) else .error "value out of range"

/-- The call `fmt.Sprintf("%d", i)` on an `int64`: the decimal text of `i`. -/
def Sprintf_d (i : Int) : String :=
  match i with
  | .ofNat n => Nat.repr n
  | .negSucc n => "-" ++ Nat.repr (n + 1)

/-! ## The elastic client: request builders -/

/-- The request built by `elastic.NewBulkIndexRequest()`. -/
structure BulkIndexRequest where
  id : String
  doc : Option Document
deriving DecidableEq, Repr

def NewBulkIndexRequest : BulkIndexRequest := { id := "", doc := none }

def BulkIndexRequest.Id (r : BulkIndexRequest) (id : String) : BulkIndexRequest :=
  { r with id := id }

def BulkIndexRequest.Doc (r : BulkIndexRequest) (doc : Document) : BulkIndexRequest :=
  { r with doc := some doc }

/-- The service built by `elasticClient.Bulk()`. -/
structure BulkService where
  index : String
  typ : String
  requests : List BulkIndexRequest
deriving DecidableEq, Repr

def Bulk : BulkService := { index := "", typ := "", requests := [] }

def BulkService.Index (s : BulkService) (index : String) : BulkService :=
  { s with index := index }

def BulkService.Type (s : BulkService) (typ : String) : BulkService :=
  { s with typ := typ }

def BulkService.Add (s : BulkService) (r : BulkIndexRequest) : BulkService :=
  { s with requests := s.requests ++ [r] }

/-- The query built by `elastic.NewMultiMatchQuery(text, fields...)`. -/
structure MultiMatchQuery where
  text : String
  fields : List String
  fuzziness : Option String
  minimumShouldMatch : Option String
deriving DecidableEq, Repr

def NewMultiMatchQuery (text : String) (fields : List String) : MultiMatchQuery :=
  { text := text, fields := fields, fuzziness := none, minimumShouldMatch := none }

def MultiMatchQuery.Fuzziness (q : MultiMatchQuery) (f : String) : MultiMatchQuery :=
  { q with fuzziness := some f }

def MultiMatchQuery.MinimumShouldMatch (q : MultiMatchQuery) (m : String) : MultiMatchQuery :=
  { q with minimumShouldMatch := some m }

/-- The service built by `elasticClient.Search()`; `fromArg` and `sizeArg` hold
the arguments given to `From` and `Size`. -/
structure SearchService where
  indices : List String
  query : Option MultiMatchQuery
  fromArg : Option Int
  sizeArg : Option Int
deriving DecidableEq, Repr

def Search : SearchService := { indices := [], query := none, fromArg := none, sizeArg := none }

def SearchService.Index (s : SearchService) (index : String) : SearchService :=
  { s with indices := s.indices ++ [index] }

def SearchService.Query (s : SearchService) (q : MultiMatchQuery) : SearchService :=
  { s with query := some q }

def SearchService.From (s : SearchService) (n : Int) : SearchService :=
  { s with fromArg := some n }

def SearchService.Size (s : SearchService) (n : Int) : SearchService :=
  { s with sizeArg := some n }

/-! ## The elastic client: results -/

/-- One hit of a search result; `Source` is a `*json.RawMessage` and may be nil. -/
structure SearchHit where
  Source : Option String
deriving DecidableEq, Repr

/-- The hits object of a search result; `Hits` is a `[]*SearchHit`, so each
element is a pointer and may be nil. -/
structure SearchHits where
  TotalHits : Int
  Hits : List (Option SearchHit)
deriving DecidableEq, Repr

/-- The result the client returns with a nil error; `Hits` is a `*SearchHits`
and is nil when the engine reply has no hits object. -/
structure SearchResult where
  TookInMillis : Int
  Hits : Option SearchHits
deriving DecidableEq, Repr

/-- One call that reaches the engine client's `Do`. -/
inductive EngineCall where
  | bulk (s : BulkService)
  | search (s : SearchService)
deriving DecidableEq, Repr

/-! ## The environment of one request -/

/-- Everything outside the handlers that one request depends on.
* `bindJSON body` is `c.BindJSON(&docs)`: `none` when it returns an error.
* `mustGenerate k` and `now k` are the values returned by the `k`-th call, within
  the request, of `shortid.MustGenerate()` and `time.Now().UTC()`.
* `bulkDo` is `BulkService.Do`: `some e` when it returns the error `e`.
* `searchDo` is `SearchService.Do`.
* `jsonUnmarshal raw doc` is `json.Unmarshal(raw, &doc)`: the value left in
  `doc` and the error returned, if any. -/
structure Env where
  bindJSON : String → Option (List DocumentRequest)
  mustGenerate : Nat → String
  now : Nat → Timestamp
  bulkDo : BulkService → Option String
  searchDo : SearchService → Except String SearchResult
  jsonUnmarshal : String → DocumentResponse → DocumentResponse × Option String

/-- What running a handler produces: the response written, or the runtime panic
that ended the handler, and the engine calls made, in order. -/
structure Outcome where
  result : Except String Response
  calls : List EngineCall

/-! ## The handlers (main.go, lines 84-166) -/

/-- The panic value of the runtime for a nil pointer dereference. -/
def nilDereference : String := "invalid memory address or nil pointer dereference"

/-- The function `errorResponse`. -/
def errorResponse (code : Nat) (err : String) : Response :=
  JSON code (H [("error", err)])

/-- The loop of `createDocumentsEndpoint` (lines 99-107); `k` counts the
iterations already run. -/
def addDocuments (env : Env) : List DocumentRequest → Nat → BulkService → BulkService
  | [], _, bulk => bulk
  | d :: ds, k, bulk =>
    let doc : Document :=
      { ID := env.mustGenerate k, Title := d.Title, CreatedAt := env.now k, Content := d.Content }
    addDocuments env ds (k + 1) (bulk.Add ((NewBulkIndexRequest.Id doc.ID).Doc doc))

/-- The handler `createDocumentsEndpoint`. -/
def createDocumentsEndpoint (env : Env) (c : Context) : Outcome :=
  match env.bindJSON c.body with
  | none => { result := .ok (errorResponse StatusBadRequest "Malformed request body"), calls := [] }
  | some docs =>
    let bulk := (Bulk.Index elasticIndexName).Type elasticTypeName
    let bulk := addDocuments env docs 0 bulk
    match env.bulkDo bulk with
    | some _ =>
      { result := .ok (errorResponse StatusInternalServerError "Failed to create documents"),
        calls := [.bulk bulk] }
    | none => { result := .ok (Status StatusOK), calls := [.bulk bulk] }

/-- The loop of `searchEndpoint` (lines 154-158): the error of `json.Unmarshal`
is dropped and `doc` is appended in every iteration; `*hit.Source` panics when
`hit` or `hit.Source` is nil. -/
def projectHits (env : Env) :
    List (Option SearchHit) → Slice DocumentResponse → Except String (Slice DocumentResponse)
  | [], docs => .ok docs
  | hit :: hits, docs =>
    match hit with
    | none => .error nilDereference
    | some h =>
      match h.Source with
      | none => .error nilDereference
      | some raw =>
        let doc := (env.jsonUnmarshal raw DocumentResponse.zero).1
        projectHits env hits (Slice.append docs doc)

/-- The handler `searchEndpoint`. Line 150 reads `result.Hits.TotalHits` through
the pointer `result.Hits`, which panics when it is nil. -/
def searchEndpoint (env : Env) (c : Context) : Outcome :=
  let query := c.Query "query"
  if query = "" then
    { result := .ok (errorResponse StatusBadRequest "Query not specified"), calls := [] }
  else
    let skip : Int := match Atoi (c.Query "skip") with
      | .ok i => i
      | .error _ => 0
    let take : Int := match Atoi (c.Query "take") with
      | .ok i => i
      | .error _ => 10
    let esQuery := ((NewMultiMatchQuery query ["title", "content"]).Fuzziness "2").MinimumShouldMatch "2"
    let service := (((Search.Index elasticIndexName).Query esQuery).From skip).Size take
    match env.searchDo service with
    | .error _ =>
      { result := .ok (errorResponse StatusInternalServerError "Something went wrong"),
        calls := [.search service] }
    | .ok result =>
      match result.Hits with
      | none => { result := .error nilDereference, calls := [.search service] }
      | some resultHits =>
        let res : SearchResponse :=
          { Time := Sprintf_d result.TookInMillis, Hits := Sprintf_d resultHits.TotalHits,
            Documents := none }
        match projectHits env resultHits.Hits Slice.make0 with
        | .error p => { result := .error p, calls := [.search service] }
        | .ok docs =>
          { result := .ok (JSON StatusOK ({ res with Documents := docs } : SearchResponse).toJson),
            calls := [.search service] }

/-- The two routes registered in `main` (lines 75-76). -/
inductive Route where
  | postDocuments
  | getSearch
deriving DecidableEq, Repr

/-- The dispatch of a request to its handler. -/
def serve (env : Env) : Route → Context → Outcome
  | .postDocuments, c => createDocumentsEndpoint env c
  | .getSearch, c => searchEndpoint env c

/-! ## Reference definitions used to state the properties -/

/-- The pagination value the specification describes for a raw parameter: the
parsed integer when the text parses, the default otherwise. -/
def defaulted (raw : String) (dflt : Int) : Int :=
  match Atoi raw with
  | .ok i => i
  | .error _ => dflt

/-- The search request the specification describes: a multi-field match on
`title` and `content` carrying the query text, fuzziness 2, minimum-should-match
2, on the index `documents`, with the given offset and limit. -/
def expectedService (query : String) (skip take : Int) : SearchService :=
  { indices := ["documents"],
    query := some { text := query, fields := ["title", "content"],
                    fuzziness := some "2", minimumShouldMatch := some "2" },
    fromArg := some skip,
    sizeArg := some take }

/-- The index operation the specification describes for the submission handled
in iteration `k`: a document with the submission's title and content, the
`k`-th generated id and the `k`-th clock reading, tagged with that same id. -/
def indexRequestOf (env : Env) (k : Nat) (d : DocumentRequest) : BulkIndexRequest :=
  { id := env.mustGenerate k,
    doc := some { ID := env.mustGenerate k, Title := d.Title, CreatedAt := env.now k,
                  Content := d.Content } }

/-- The bulk service `createDocumentsEndpoint` hands to `Do` for the bound submissions. -/
def bulkOf (env : Env) (docs : List DocumentRequest) : BulkService :=
  addDocuments env docs 0 ((Bulk.Index elasticIndexName).Type elasticTypeName)

/-- The request is valid and the engine call it leads to returns the error `e`. -/
def engineFailsWith (env : Env) : Route → Context → String → Prop
  | .postDocuments, c, e =>
    ∃ docs, env.bindJSON c.body = some docs ∧ env.bulkDo (bulkOf env docs) = some e
  | .getSearch, c, e =>
    c.Query "query" ≠ "" ∧
      env.searchDo (expectedService (c.Query "query") (defaulted (c.Query "skip") 0)
        (defaulted (c.Query "take") 10)) = .error e

/-- The message the specification documents for an engine failure on each route. -/
def genericMessage : Route → String
  | .postDocuments => "Failed to create documents"
  | .getSearch => "Something went wrong"

/-- The source payload a hit of the result leads to: `none` when the hit or its
`Source` is nil. -/
def hitSource (h : Option SearchHit) : Option String :=
  match h with
  | none => none
  | some hit => hit.Source

/-- The hits a search result returns: those of its hits object, none when the
result has no hits object. -/
def returnedHits (r : SearchResult) : List (Option SearchHit) :=
  match r.Hits with
  | none => []
  | some hs => hs.Hits

/-- The record that one hit leaves in `doc` after `json.Unmarshal`, whether or
not the call returned an error (the zero record when there is no source). -/
def decodeHit (env : Env) (h : Option SearchHit) : DocumentResponse :=
  match hitSource h with
  | some raw => (env.jsonUnmarshal raw DocumentResponse.zero).1
  | none => DocumentResponse.zero

/-- The record the specification describes for one hit: the title, created_at
and content decoded from its source, and nothing else. -/
def referenceRecord (env : Env) (h : Option SearchHit) : Json :=
  .obj [("title", .str (decodeHit env h).Title),
        ("created_at", .time (decodeHit env h).CreatedAt),
        ("content", .str (decodeHit env h).Content)]

/-- The reference projection of a search result, after the specification: the
decimal text of the elapsed milliseconds, the decimal text of the total hit
count, and one record per hit, in the order of the hits. -/
def referenceProjection (env : Env) (elapsedMillis : Int) (hits : SearchHits) : Json :=
  .obj [("time", .str (toString elapsedMillis)),
        ("hits", .str (toString hits.TotalHits)),
        ("documents", .arr (hits.Hits.map (referenceRecord env)))]

/-- The projection that skips a hit whose source does not decode: only the hits
for which `json.Unmarshal` returns no error contribute a record. -/
def skipProjection (env : Env) (hits : List (Option SearchHit)) : List DocumentResponse :=
  hits.filterMap (fun h =>
    match hitSource h with
    | none => none
    | some raw =>
      match env.jsonUnmarshal raw DocumentResponse.zero with
      | (doc, none) => some doc
      | (_, some _) => none)

/-! ## Sample environments and requests -/

/-- The stored source of a document titled Alpha. -/
def alphaSource : String :=
  "\x7b\"id\":\"dQRcZ-mgR\",\"title\":\"Alpha\",\"created_at\":\"0001-01-01T00:00:01Z\",\"content\":\"Beta Gamma\"\x7d"

/-- The record that `alphaSource` decodes to. -/
def alphaDocument : DocumentResponse :=
  { Title := "Alpha", CreatedAt := ⟨1000000000⟩, Content := "Beta Gamma" }

/-- A stored source that is the JSON string `"oops"` and not a JSON object. -/
def oopsSource : String := "\"oops\""

/-- A decoder that agrees with `json.Unmarshal` on `alphaSource` and on
`oopsSource`: a JSON string cannot be stored in the struct, the call returns an
error and `doc` is left as it was. -/
def sampleUnmarshal (raw : String) (doc : DocumentResponse) : DocumentResponse × Option String :=
  if raw = alphaSource then (alphaDocument, none)
  else (doc, some "json: cannot unmarshal string into Go value of type main.DocumentResponse")

/-- A search result of two hits: the source of the first is `oopsSource`, the
source of the second is `alphaSource`. -/
def sampleResult : SearchResult :=
  { TookInMillis := 3,
    Hits := some { TotalHits := 2,
                   Hits := [some { Source := some oopsSource }, some { Source := some alphaSource }] } }

/-- A search result whose only hit has no source. -/
def sourcelessResult : SearchResult :=
  { TookInMillis := 1, Hits := some { TotalHits := 1, Hits := [some { Source := none }] } }

/-- The result decoded from an engine reply that has no hits object. -/
def hitlessResult : SearchResult :=
  { TookInMillis := 1, Hits := none }

/-- An environment with a reachable engine. Its bulk call refuses a batch with no
request, as the elastic client does (`elastic: No bulk actions to commit`). -/
def sampleEnv : Env :=
  { bindJSON := fun body =>
      if body = "[]" ∨ body = "null" then some []
      else if body = "two" then
        some [{ Title := "Alpha", Content := "Beta Gamma" }, { Title := "Alpha", Content := "Beta Gamma" }]
      else none,
    mustGenerate := fun k => "doc-" ++ Nat.repr k,
    now := fun k => ⟨1000 + k⟩,
    bulkDo := fun s => if s.requests = [] then some "elastic: No bulk actions to commit" else none,
    searchDo := fun s =>
      if s.sizeArg = some 0 then .ok sourcelessResult else .ok sampleResult,
    jsonUnmarshal := sampleUnmarshal }

/-- The stored source of a document titled Omega. -/
def omegaSource : String :=
  "\x7b\"id\":\"kX3bW-mgR\",\"title\":\"Omega\",\"created_at\":\"0001-01-01T00:00:02Z\",\"content\":\"Beta\"\x7d"

/-- A search result of two different hits: the document titled Omega, then the
document titled Alpha. -/
def alphaResult : SearchResult :=
  { TookInMillis := 7,
    Hits := some { TotalHits := 41,
                   Hits := [some { Source := some omegaSource }, some { Source := some alphaSource }] } }

/-- An environment whose engine answers every search with `alphaResult` and
whose decoder also decodes `omegaSource`. -/
def alphaEnv : Env :=
  { sampleEnv with
    searchDo := fun _ => .ok alphaResult,
    jsonUnmarshal := fun raw doc =>
      if raw = omegaSource then
        ({ Title := "Omega", CreatedAt := ⟨2000000000⟩, Content := "Beta" }, none)
      else sampleUnmarshal raw doc }

/-- An environment whose engine answers every search with a reply that has no
hits object. -/
def hitlessEnv : Env :=
  { sampleEnv with searchDo := fun _ => .ok hitlessResult }

/-- An environment whose identifier source returns the same value at every call. -/
def repeatingEnv : Env :=
  { sampleEnv with mustGenerate := fun _ => "dQRcZ-mgR" }

/-- An environment whose engine cannot be reached. -/
def downEnv : Env :=
  { sampleEnv with
    bulkDo := fun _ => some "dial tcp: connection refused",
    searchDo := fun _ => .error "dial tcp: connection refused" }

/-- The request `GET /search?query=Beta&skip=abc&take=-3`. -/
def sampleSearch : Context :=
  { queryPairs := [("query", "Beta"), ("skip", "abc"), ("take", "-3")], body := "" }

/-- The request `GET /search?skip=5&take=3`. -/
def noQuerySearch : Context :=
  { queryPairs := [("skip", "5"), ("take", "3")], body := "" }

/-- A `POST /documents` whose body binds to two submissions. -/
def samplePost : Context := { queryPairs := [], body := "two" }

/-- A `POST /documents` whose body is the empty array. -/
def emptyPost : Context := { queryPairs := [], body := "[]" }

/-- A `POST /documents` whose body is a JSON object, not an array. -/
def malformedPost : Context := { queryPairs := [], body := "\x7b\"title\":1\x7d" }

/-! ## Basic facts about the handlers -/

theorem Query_eq_empty_iff (c : Context) (key : String) :
    c.Query key = "" ↔ (c.GetQuery key = none ∨ c.GetQuery key = some "") := by
  unfold Context.Query
  cases h : c.GetQuery key with
  | none => simp
  | some v => simp

/-! ### Decimal text and `strconv.Atoi` -/

theorem digitChar_spec (k : Nat) (hk : k < 10) :
    (Nat.digitChar k).isDigit = true ∧ (Nat.digitChar k).toNat - '0'.toNat = k
      ∧ Nat.digitChar k ≠ '-' ∧ Nat.digitChar k ≠ '+' := by
  interval_cases k <;> decide

theorem digitsValue_append (xs : List Char) (ch : Char) :
    digitsValue (xs ++ [ch]) = digitsValue xs * 10 + (ch.toNat - '0'.toNat) := by
  simp [digitsValue, List.foldl_append]

theorem toDigitsCore_spec (fuel n : Nat) (ds : List Char) (hf : n < fuel) :
    ∃ L : List Char, Nat.toDigitsCore 10 fuel n ds = L ++ ds ∧ L ≠ []
      ∧ (∀ ch ∈ L, ch.isDigit = true) ∧ digitsValue L = n := by
  induction fuel generalizing n ds with
  | zero => omega
  | succ fuel ih =>
    have hd := digitChar_spec (n % 10) (Nat.mod_lt n (by decide))
    unfold Nat.toDigitsCore
    by_cases h0 : n / 10 = 0
    · refine ⟨[Nat.digitChar (n % 10)], by simp [h0], by simp, by simpa using hd.1, ?_⟩
      have : digitsValue [Nat.digitChar (n % 10)] = (Nat.digitChar (n % 10)).toNat - '0'.toNat := by
        simp [digitsValue]
      rw [this, hd.2.1]
      omega
    · have hlt : n / 10 < fuel := by omega
      obtain ⟨L, hL, hne, hdig, hval⟩ := ih (n / 10) (Nat.digitChar (n % 10) :: ds) hlt
      refine ⟨L ++ [Nat.digitChar (n % 10)], by simp [h0, hL], by simp, ?_, ?_⟩
      · intro ch hch
        rcases List.mem_append.mp hch with h | h
        · exact hdig ch h
        · simp at h; rw [h]; exact hd.1
      · rw [digitsValue_append, hval, hd.2.1]
        omega

theorem repr_toList (n : Nat) :
    (Nat.repr n).toList ≠ [] ∧ (∀ ch ∈ (Nat.repr n).toList, ch.isDigit = true)
      ∧ digitsValue (Nat.repr n).toList = n := by
  obtain ⟨L, hL, hne, hdig, hval⟩ := toDigitsCore_spec (n + 1) n [] (Nat.lt_succ_self n)
  have : (Nat.repr n).toList = L := by
    simp [Nat.repr, Nat.toDigits, hL, List.asString]
  rw [this]
  exact ⟨hne, hdig, hval⟩

theorem signless_of_digit (a : Char) (ha : a.isDigit = true) : a ≠ '-' ∧ a ≠ '+' := by
  constructor <;> (rintro rfl; revert ha; decide)

theorem Atoi_of_digits (cs : List Char) (hne : cs ≠ [])
    (hdig : ∀ ch ∈ cs, ch.isDigit = true) (hr : digitsValue cs < 2 ^ 63) :
    Atoi (String.mk cs) = .ok (digitsValue cs : Int) := by
  cases cs with
  | nil => exact absurd rfl hne
  | cons a r =>
    obtain ⟨h1, h2⟩ := signless_of_digit a (hdig a (List.mem_cons_self a r))
    have hall : (a :: r).all Char.isDigit = true := List.all_eq_true.mpr hdig
    have hds : (match a :: r with
        | '-' :: t => t
        | '+' :: t => t
        | _ => a :: r) = a :: r := by
      split
      · rename_i h; injection h with h _; exact absurd h h1
      · rename_i h; injection h with h _; exact absurd h h2
      · rfl
    have hr2 : digitsValue (a :: r) < 9223372036854775808 := by norm_num at hr; exact hr
    simp only [Atoi, String.toList, hds, List.head?_cons, Option.some.injEq, h1, hall]
    simp [hr2]

theorem Atoi_of_minus_digits (cs : List Char) (hne : cs ≠ [])
    (hdig : ∀ ch ∈ cs, ch.isDigit = true) (hr : digitsValue cs ≤ 2 ^ 63) :
    Atoi (String.mk ('-' :: cs)) = .ok (-(digitsValue cs : Int)) := by
  have hall : cs.all Char.isDigit = true := List.all_eq_true.mpr hdig
  have hr2 : digitsValue cs ≤ 9223372036854775808 := by norm_num at hr; exact hr
  simp only [Atoi, String.toList, List.head?_cons]
  simp [hne, hall, hr2]

/-- The decimal text of an `int64` value parses back to that value. -/
theorem Atoi_Sprintf_d (i : Int) (hlo : -(2 ^ 63) ≤ i) (hhi : i < 2 ^ 63) :
    Atoi (Sprintf_d i) = .ok i := by
  cases i with
  | ofNat n =>
    obtain ⟨hne, hdig, hval⟩ := repr_toList n
    have hs : Sprintf_d (Int.ofNat n) = String.mk (Nat.repr n).toList := rfl
    rw [hs, Atoi_of_digits _ hne hdig (by rw [hval]; simp only [Int.ofNat_eq_coe] at hhi; omega), hval]
    rfl
  | negSucc n =>
    obtain ⟨hne, hdig, hval⟩ := repr_toList (n + 1)
    have hs : Sprintf_d (Int.negSucc n) = String.mk ('-' :: (Nat.repr (n + 1)).toList) := by
      simp [Sprintf_d, String.ext_iff]
    rw [hs, Atoi_of_minus_digits _ hne hdig (by rw [hval]; rw [Int.negSucc_eq] at hlo; omega), hval]
    rfl

/-! ### The handlers, case by case -/

theorem searchEndpoint_no_query (env : Env) (c : Context) (hq : c.Query "query" = "") :
    searchEndpoint env c =
      { result := .ok (errorResponse StatusBadRequest "Query not specified"), calls := [] } := by
  simp [searchEndpoint, hq]

theorem searchEndpoint_calls (env : Env) (c : Context) (hq : c.Query "query" ≠ "") :
    (searchEndpoint env c).calls =
      [.search (expectedService (c.Query "query") (defaulted (c.Query "skip") 0)
        (defaulted (c.Query "take") 10))] := by
  simp only [searchEndpoint, if_neg hq]
  split
  · rfl
  · split
    · rfl
    · split <;> rfl

theorem searchEndpoint_engine_error (env : Env) (c : Context) (e : String)
    (hq : c.Query "query" ≠ "")
    (hdo : env.searchDo (expectedService (c.Query "query") (defaulted (c.Query "skip") 0)
      (defaulted (c.Query "take") 10)) = .error e) :
    (searchEndpoint env c).result =
      .ok (errorResponse StatusInternalServerError "Something went wrong") := by
  have hdo2 := hdo
  simp only [expectedService, defaulted] at hdo2
  simp only [searchEndpoint, if_neg hq, Search, SearchService.Index, SearchService.Query,
    SearchService.From, SearchService.Size, NewMultiMatchQuery, MultiMatchQuery.Fuzziness,
    MultiMatchQuery.MinimumShouldMatch, elasticIndexName, List.nil_append]
  rw [hdo2]

theorem searchEndpoint_no_hits_object (env : Env) (c : Context) (r : SearchResult)
    (hq : c.Query "query" ≠ "")
    (hdo : env.searchDo (expectedService (c.Query "query") (defaulted (c.Query "skip") 0)
      (defaulted (c.Query "take") 10)) = .ok r)
    (hnil : r.Hits = none) :
    (searchEndpoint env c).result = .error nilDereference := by
  have hdo2 := hdo
  simp only [expectedService, defaulted] at hdo2
  simp only [searchEndpoint, if_neg hq, Search, SearchService.Index, SearchService.Query,
    SearchService.From, SearchService.Size, NewMultiMatchQuery, MultiMatchQuery.Fuzziness,
    MultiMatchQuery.MinimumShouldMatch, elasticIndexName, List.nil_append]
  rw [hdo2]
  simp only [hnil]

theorem searchEndpoint_engine_ok (env : Env) (c : Context) (r : SearchResult) (hs : SearchHits)
    (hq : c.Query "query" ≠ "")
    (hdo : env.searchDo (expectedService (c.Query "query") (defaulted (c.Query "skip") 0)
      (defaulted (c.Query "take") 10)) = .ok r)
    (hhits : r.Hits = some hs) :
    (searchEndpoint env c).result =
      match projectHits env hs.Hits Slice.make0 with
      | .error p => .error p
      | .ok docs =>
        .ok (JSON StatusOK (SearchResponse.toJson
          { Time := Sprintf_d r.TookInMillis, Hits := Sprintf_d hs.TotalHits,
            Documents := docs })) := by
  have hdo2 := hdo
  simp only [expectedService, defaulted] at hdo2
  simp only [searchEndpoint, if_neg hq, Search, SearchService.Index, SearchService.Query,
    SearchService.From, SearchService.Size, NewMultiMatchQuery, MultiMatchQuery.Fuzziness,
    MultiMatchQuery.MinimumShouldMatch, elasticIndexName, List.nil_append]
  rw [hdo2]
  simp only [hhits]
  split <;> rfl

/-- The answers of `searchEndpoint` to a request with a non-empty query: the
generic 500, a nil pointer dereference, or a 200. -/
theorem searchEndpoint_result_cases (env : Env) (c : Context) (hq : c.Query "query" ≠ "") :
    (searchEndpoint env c).result =
        .ok (errorResponse StatusInternalServerError "Something went wrong")
    ∨ (∃ p, (searchEndpoint env c).result = .error p)
    ∨ (∃ body, (searchEndpoint env c).result = .ok (JSON StatusOK body)) := by
  cases hdo : env.searchDo (expectedService (c.Query "query") (defaulted (c.Query "skip") 0)
      (defaulted (c.Query "take") 10)) with
  | error e => exact Or.inl (searchEndpoint_engine_error env c e hq hdo)
  | ok r =>
    cases hhits : r.Hits with
    | none => exact Or.inr (Or.inl ⟨_, searchEndpoint_no_hits_object env c r hq hdo hhits⟩)
    | some hs =>
      rw [searchEndpoint_engine_ok env c r hs hq hdo hhits]
      split
      · exact Or.inr (Or.inl ⟨_, rfl⟩)
      · exact Or.inr (Or.inr ⟨_, rfl⟩)

theorem projectHits_of_sources (env : Env) (hits : List (Option SearchHit))
    (acc : List DocumentResponse) (hsrc : ∀ h ∈ hits, hitSource h ≠ none) :
    projectHits env hits (some acc) = .ok (some (acc ++ hits.map (decodeHit env))) := by
  induction hits generalizing acc with
  | nil => simp [projectHits]
  | cons h hs ih =>
    have hh : hitSource h ≠ none := hsrc h (List.mem_cons_self h hs)
    have hrest : ∀ x ∈ hs, hitSource x ≠ none := fun x hx => hsrc x (List.mem_cons_of_mem h hx)
    cases h with
    | none => exact absurd rfl hh
    | some hit =>
      cases hs0 : hit.Source with
      | none => exact absurd (by simp [hitSource, hs0]) hh
      | some raw =>
        simp only [projectHits, hs0, Slice.append]
        rw [ih (acc ++ [(env.jsonUnmarshal raw DocumentResponse.zero).1]) hrest]
        simp [decodeHit, hitSource, hs0]

theorem projectHits_of_nil_source (env : Env) (hits : List (Option SearchHit))
    (docs : Slice DocumentResponse) (hnil : ∃ h ∈ hits, hitSource h = none) :
    projectHits env hits docs = .error nilDereference := by
  induction hits generalizing docs with
  | nil => simp at hnil
  | cons h hs ih =>
    cases h with
    | none => simp [projectHits]
    | some hit =>
      cases hs0 : hit.Source with
      | none => simp [projectHits, hs0]
      | some raw =>
        simp only [projectHits, hs0]
        apply ih
        obtain ⟨x, hx, hxs⟩ := hnil
        rcases List.mem_cons.mp hx with rfl | hx2
        · simp [hitSource, hs0] at hxs
        · exact ⟨x, hx2, hxs⟩

theorem searchEndpoint_call_inv (env : Env) (c : Context) (svc : SearchService)
    (hcall : (searchEndpoint env c).calls = [.search svc]) :
    c.Query "query" ≠ "" ∧
      svc = expectedService (c.Query "query") (defaulted (c.Query "skip") 0)
        (defaulted (c.Query "take") 10) := by
  have hq : c.Query "query" ≠ "" := by
    intro hq
    rw [searchEndpoint_no_query env c hq] at hcall
    cases hcall
  refine ⟨hq, ?_⟩
  rw [searchEndpoint_calls env c hq] at hcall
  injection hcall with h1 _
  injection h1 with h2
  exact h2.symm

theorem Sprintf_d_eq_toString (i : Int) : Sprintf_d i = toString i := by
  cases i <;> rfl

theorem searchEndpoint_all_sources (env : Env) (c : Context) (svc : SearchService)
    (r : SearchResult) (hs : SearchHits)
    (hcall : (searchEndpoint env c).calls = [.search svc])
    (hdo : env.searchDo svc = .ok r) (hhits : r.Hits = some hs)
    (hsrc : ∀ h ∈ hs.Hits, hitSource h ≠ none) :
    (searchEndpoint env c).result =
      .ok (JSON StatusOK (SearchResponse.toJson
        { Time := Sprintf_d r.TookInMillis, Hits := Sprintf_d hs.TotalHits,
          Documents := some (hs.Hits.map (decodeHit env)) })) := by
  obtain ⟨hq, hsvc⟩ := searchEndpoint_call_inv env c svc hcall
  subst hsvc
  rw [searchEndpoint_engine_ok env c r hs hq hdo hhits,
    show (Slice.make0 : Slice DocumentResponse) = some [] from rfl,
    projectHits_of_sources env _ [] hsrc]
  rfl

theorem addDocuments_eq (env : Env) (ds : List DocumentRequest) (k : Nat) (bulk : BulkService) :
    addDocuments env ds k bulk =
      { bulk with
        requests := bulk.requests ++ (ds.enumFrom k).map (fun p => indexRequestOf env p.1 p.2) } := by
  induction ds generalizing k bulk with
  | nil => simp [addDocuments]
  | cons d ds ih =>
    simp [addDocuments, ih, BulkService.Add, NewBulkIndexRequest, BulkIndexRequest.Id,
      BulkIndexRequest.Doc, indexRequestOf, List.enumFrom]

theorem bulkOf_eq (env : Env) (docs : List DocumentRequest) :
    bulkOf env docs =
      { index := "documents", typ := "document",
        requests := (docs.enumFrom 0).map (fun p => indexRequestOf env p.1 p.2) } := by
  simp [bulkOf, addDocuments_eq, Bulk, BulkService.Index, BulkService.Type, elasticIndexName,
    elasticTypeName]

theorem createDocumentsEndpoint_malformed (env : Env) (c : Context)
    (hbind : env.bindJSON c.body = none) :
    createDocumentsEndpoint env c =
      { result := .ok (errorResponse StatusBadRequest "Malformed request body"), calls := [] } := by
  simp [createDocumentsEndpoint, hbind]

theorem createDocumentsEndpoint_calls (env : Env) (c : Context) (docs : List DocumentRequest)
    (hbind : env.bindJSON c.body = some docs) :
    (createDocumentsEndpoint env c).calls = [.bulk (bulkOf env docs)] := by
  simp only [createDocumentsEndpoint, hbind, bulkOf]
  split <;> rfl

theorem createDocumentsEndpoint_engine_error (env : Env) (c : Context)
    (docs : List DocumentRequest) (e : String) (hbind : env.bindJSON c.body = some docs)
    (herr : env.bulkDo (bulkOf env docs) = some e) :
    (createDocumentsEndpoint env c).result =
      .ok (errorResponse StatusInternalServerError "Failed to create documents") := by
  unfold bulkOf at herr
  simp only [createDocumentsEndpoint, hbind, herr]

theorem createDocumentsEndpoint_engine_ok (env : Env) (c : Context)
    (docs : List DocumentRequest) (hbind : env.bindJSON c.body = some docs)
    (hok : env.bulkDo (bulkOf env docs) = none) :
    (createDocumentsEndpoint env c).result = .ok (Status StatusOK) := by
  unfold bulkOf at hok
  simp only [createDocumentsEndpoint, hbind, hok]

/-! ## The search endpoint: validation, pagination, query construction -/

/-- C1: `searchEndpoint` answers 400 with body `{"error": "Query not specified"}`
exactly when the `query` parameter is absent or the empty string, whatever the
other parameters (in particular `skip` and `take`) and the environment are. -/
theorem searchEndpoint_bad_request_iff (env : Env) (c : Context) :
    (searchEndpoint env c).result =
        .ok { code := 400, body := some (.obj [("error", .str "Query not specified")]) }
      ↔ (c.GetQuery "query" = none ∨ c.GetQuery "query" = some "") := by
  rw [← Query_eq_empty_iff]
  constructor
  · intro h
    by_contra hq
    rcases searchEndpoint_result_cases env c hq with h5 | ⟨p, hp⟩ | ⟨body, hb⟩
    · rw [h5] at h
      simp [errorResponse, JSON, StatusInternalServerError] at h
    · rw [hp] at h
      cases h
    · rw [hb] at h
      simp [JSON, StatusOK] at h
  · intro hq
    rw [searchEndpoint_no_query env c hq]
    rfl

/-- C2: for a non-empty query the handler makes one search call whose offset and
limit are the value `strconv.Atoi` parses from the raw `skip` and `take` strings
when it succeeds (unchanged, whatever its sign: the decimal text of any 64-bit
integer gives that integer) and 0 and 10 when it fails, in particular for an
absent or empty parameter; each parameter is defaulted on its own, and the
answer is never a 400: it is 200 whenever the engine call succeeds with a hits
object and every hit has a source. -/
theorem searchEndpoint_pagination (env : Env) (c : Context) (hq : c.Query "query" ≠ "") :
    ∃ svc : SearchService,
      (searchEndpoint env c).calls = [.search svc]
      ∧ (∀ i, Atoi (c.Query "skip") = .ok i → svc.fromArg = some i)
      ∧ (∀ e, Atoi (c.Query "skip") = .error e → svc.fromArg = some 0)
      ∧ (∀ i, Atoi (c.Query "take") = .ok i → svc.sizeArg = some i)
      ∧ (∀ e, Atoi (c.Query "take") = .error e → svc.sizeArg = some 10)
      ∧ (∀ i : Int, -(2 ^ 63) ≤ i → i < 2 ^ 63 → c.Query "skip" = Sprintf_d i →
          svc.fromArg = some i)
      ∧ (∀ i : Int, -(2 ^ 63) ≤ i → i < 2 ^ 63 → c.Query "take" = Sprintf_d i →
          svc.sizeArg = some i)
      ∧ (c.GetQuery "skip" = none ∨ c.GetQuery "skip" = some "" → svc.fromArg = some 0)
      ∧ (c.GetQuery "take" = none ∨ c.GetQuery "take" = some "" → svc.sizeArg = some 10)
      ∧ (∀ r, (searchEndpoint env c).result = .ok r → r.code ≠ 400)
      ∧ (∀ res hs, env.searchDo svc = .ok res → res.Hits = some hs →
          (∀ h ∈ hs.Hits, hitSource h ≠ none) →
          ∃ body, (searchEndpoint env c).result = .ok { code := 200, body := some body }) := by
  refine ⟨_, searchEndpoint_calls env c hq, ?_, ?_, ?_, ?_, ?_, ?_, ?_, ?_, ?_, ?_⟩
  · intro i hi
    simp [expectedService, defaulted, hi]
  · intro e he
    simp [expectedService, defaulted, he]
  · intro i hi
    simp [expectedService, defaulted, hi]
  · intro e he
    simp [expectedService, defaulted, he]
  · intro i hlo hhi hs
    simp [expectedService, defaulted, hs, Atoi_Sprintf_d i hlo hhi]
  · intro i hlo hhi hs
    simp [expectedService, defaulted, hs, Atoi_Sprintf_d i hlo hhi]
  · intro h
    rw [(Query_eq_empty_iff c "skip").mpr h]
    rfl
  · intro h
    rw [(Query_eq_empty_iff c "take").mpr h]
    rfl
  · intro r hr hcode
    rcases searchEndpoint_result_cases env c hq with h5 | ⟨p, hp⟩ | ⟨body, hb⟩
    · rw [h5] at hr
      injection hr with hr
      subst hr
      simp [errorResponse, JSON, StatusInternalServerError] at hcode
    · rw [hp] at hr
      cases hr
    · rw [hb] at hr
      injection hr with hr
      subst hr
      simp [JSON, StatusOK] at hcode
  · intro res hs hdo hhits hsrc
    rw [searchEndpoint_engine_ok env c res hs hq hdo hhits,
      show (Slice.make0 : Slice DocumentResponse) = some [] from rfl,
      projectHits_of_sources env _ [] hsrc]
    exact ⟨_, rfl⟩

/-- Witness of C2 on `GET /search?query=Beta&skip=abc&take=-3`. -/
theorem searchEndpoint_pagination_witness :
    sampleSearch.Query "query" ≠ "" ∧
    ∃ svc : SearchService,
      (searchEndpoint sampleEnv sampleSearch).calls = [.search svc]
      ∧ svc.fromArg = some 0 ∧ svc.sizeArg = some (-3) := by
  have hq : sampleSearch.Query "query" ≠ "" := by decide
  obtain ⟨svc, hcalls, -, hskip, htake, -⟩ :=
    searchEndpoint_pagination sampleEnv sampleSearch hq
  exact ⟨hq, svc, hcalls, hskip "invalid syntax" rfl, htake (-3) rfl⟩

/-- C9: for a non-empty query, whatever its number of terms, the one call the
handler makes is a search on the single index `documents` whose query is a
multi-field match over exactly `title` and `content`, carrying the query text
as received, with fuzziness "2" and minimum-should-match "2". -/
theorem searchEndpoint_query_shape (env : Env) (c : Context) (hq : c.Query "query" ≠ "") :
    ∃ skip take : Int,
      (searchEndpoint env c).calls =
        [.search
          { indices := ["documents"],
            query := some { text := c.Query "query", fields := ["title", "content"],
                            fuzziness := some "2", minimumShouldMatch := some "2" },
            fromArg := some skip,
            sizeArg := some take }] :=
  ⟨_, _, searchEndpoint_calls env c hq⟩

/-- Witness of C9 on `GET /search?query=Beta&skip=abc&take=-3`. -/
theorem searchEndpoint_query_shape_witness :
    sampleSearch.Query "query" ≠ "" ∧
    ∃ skip take : Int,
      (searchEndpoint sampleEnv sampleSearch).calls =
        [.search
          { indices := ["documents"],
            query := some { text := "Beta", fields := ["title", "content"],
                            fuzziness := some "2", minimumShouldMatch := some "2" },
            fromArg := some skip,
            sizeArg := some take }] :=
  ⟨by decide, searchEndpoint_query_shape sampleEnv sampleSearch (by decide)⟩

/-! ## The search endpoint: result projection -/

/-- C3, refuted on a result of two hits whose first source is a JSON string and
not an object: the decoder reports an error for it, yet the 200 response lists
two documents, the zero record for that hit first, and so differs from the
response that would skip the hit. -/
theorem undecodable_hit_is_not_skipped :
    (sampleEnv.jsonUnmarshal oopsSource DocumentResponse.zero).2 ≠ none
    ∧ (searchEndpoint sampleEnv sampleSearch).result =
        .ok (JSON 200 (SearchResponse.toJson
          { Time := "3", Hits := "2", Documents := some [DocumentResponse.zero, alphaDocument] }))
    ∧ skipProjection sampleEnv
        [some { Source := some oopsSource }, some { Source := some alphaSource }] = [alphaDocument]
    ∧ (searchEndpoint sampleEnv sampleSearch).result ≠
        .ok (JSON 200 (SearchResponse.toJson
          { Time := "3", Hits := "2",
            Documents := some (skipProjection sampleEnv
              [some { Source := some oopsSource }, some { Source := some alphaSource }]) })) := by
  have hres : (searchEndpoint sampleEnv sampleSearch).result =
      .ok (JSON 200 (SearchResponse.toJson
        { Time := "3", Hits := "2", Documents := some [DocumentResponse.zero, alphaDocument] })) :=
    rfl
  have hskip : skipProjection sampleEnv
      [some { Source := some oopsSource }, some { Source := some alphaSource }] = [alphaDocument] :=
    rfl
  refine ⟨by decide, hres, hskip, ?_⟩
  rw [hres, hskip]
  intro h
  simp [JSON, SearchResponse.toJson, Slice.toJson] at h

/-- C3 as amended: when the engine call succeeds with a hits object and every hit
has a source, the answer is 200 and the documents list has one entry per hit,
in order: the entry of a hit is the record `json.Unmarshal` left for it, also
when the call returned an error, so a hit that does not decode is kept and the
other hits are projected as usual. -/
theorem undecodable_hit_contributes (env : Env) (c : Context) (svc : SearchService)
    (r : SearchResult) (hs : SearchHits)
    (hcall : (searchEndpoint env c).calls = [.search svc])
    (hdo : env.searchDo svc = .ok r) (hhits : r.Hits = some hs)
    (hsrc : ∀ h ∈ hs.Hits, hitSource h ≠ none) :
    ∃ docs : List DocumentResponse,
      (searchEndpoint env c).result =
        .ok (JSON 200 (SearchResponse.toJson
          { Time := Sprintf_d r.TookInMillis, Hits := Sprintf_d hs.TotalHits,
            Documents := some docs }))
      ∧ docs.length = hs.Hits.length
      ∧ ∀ (i : Nat) (raw : String), hs.Hits[i]? = some (some { Source := some raw }) →
          docs[i]? = some (env.jsonUnmarshal raw DocumentResponse.zero).1 := by
  refine ⟨hs.Hits.map (decodeHit env),
    searchEndpoint_all_sources env c svc r hs hcall hdo hhits hsrc, by simp, ?_⟩
  intro i raw hi
  simp [List.getElem?_map, hi, decodeHit, hitSource]

/-- Witness of the amended C3 on the sample result, whose first hit does not decode. -/
theorem undecodable_hit_contributes_witness :
    ∃ docs : List DocumentResponse,
      (searchEndpoint sampleEnv sampleSearch).result =
        .ok (JSON 200 (SearchResponse.toJson
          { Time := Sprintf_d 3, Hits := Sprintf_d 2, Documents := some docs }))
      ∧ docs.length = 2
      ∧ ∀ (i : Nat) (raw : String),
          [some { Source := some oopsSource }, some ({ Source := some alphaSource } : SearchHit)][i]?
              = some (some { Source := some raw }) →
          docs[i]? = some (sampleEnv.jsonUnmarshal raw DocumentResponse.zero).1 :=
  undecodable_hit_contributes sampleEnv sampleSearch
    (expectedService "Beta" 0 (-3)) sampleResult
    { TotalHits := 2, Hits := [some { Source := some oopsSource }, some { Source := some alphaSource }] }
    rfl rfl rfl (by decide)

/-- C8: when the engine call succeeds with a hits object and every hit source
decodes, the answer is 200 and its body is the reference projection of the
result: `time` and `hits` are the decimal texts of the elapsed milliseconds and
of the total hit count (functions of the engine result alone), and `documents`
lists one record per hit, in the order of the hits, each with exactly the keys
`title`, `created_at` and `content`, hence without `id`. -/
theorem searchEndpoint_reference_projection (env : Env) (c : Context) (svc : SearchService)
    (r : SearchResult) (hs : SearchHits)
    (hcall : (searchEndpoint env c).calls = [.search svc])
    (hdo : env.searchDo svc = .ok r) (hhits : r.Hits = some hs)
    (hdec : ∀ h ∈ hs.Hits, ∃ raw, hitSource h = some raw ∧
      (env.jsonUnmarshal raw DocumentResponse.zero).2 = none) :
    (searchEndpoint env c).result =
        .ok { code := 200, body := some (referenceProjection env r.TookInMillis hs) }
    ∧ (referenceProjection env r.TookInMillis hs).keys = ["time", "hits", "documents"]
    ∧ ∀ h ∈ hs.Hits,
        (referenceRecord env h).keys = ["title", "created_at", "content"]
        ∧ "id" ∉ (referenceRecord env h).keys := by
  have hsrc : ∀ h ∈ hs.Hits, hitSource h ≠ none := by
    intro h hh
    obtain ⟨raw, hraw, -⟩ := hdec h hh
    simp [hraw]
  refine ⟨?_, rfl, ?_⟩
  · rw [searchEndpoint_all_sources env c svc r hs hcall hdo hhits hsrc]
    simp only [JSON, SearchResponse.toJson, Slice.toJson, referenceProjection,
      Sprintf_d_eq_toString, List.map_map, StatusOK]
    rfl
  · intro h _
    refine ⟨rfl, ?_⟩
    simp [referenceRecord, Json.keys]

/-- Witness of C8 on a result of two different hits, Omega before Alpha: the
documents keep that order. -/
theorem searchEndpoint_reference_projection_witness :
    (searchEndpoint alphaEnv sampleSearch).result =
      .ok { code := 200,
            body := some (.obj [("time", .str "7"), ("hits", .str "41"),
              ("documents", .arr
                [.obj [("title", .str "Omega"), ("created_at", .time ⟨2000000000⟩),
                       ("content", .str "Beta")],
                 .obj [("title", .str "Alpha"), ("created_at", .time ⟨1000000000⟩),
                       ("content", .str "Beta Gamma")]])]) } :=
  (searchEndpoint_reference_projection alphaEnv sampleSearch (expectedService "Beta" 0 (-3))
    alphaResult
    { TotalHits := 41,
      Hits := [some { Source := some omegaSource }, some { Source := some alphaSource }] }
    rfl rfl rfl (by
      intro h hh
      simp only [List.mem_cons, List.mem_singleton, List.not_mem_nil, or_false] at hh
      rcases hh with rfl | rfl
      · exact ⟨omegaSource, rfl, rfl⟩
      · exact ⟨alphaSource, rfl, rfl⟩)).1

/-- C10, refuted on an engine reply without a hits object: the engine call
succeeds and no hit is returned, so no returned hit lacks a source, yet the
handler ends in a nil pointer dereference at line 150 and writes no 200. -/
theorem hitless_result_panics :
    hitlessEnv.searchDo (expectedService "Beta" 0 (-3)) = .ok hitlessResult
    ∧ (searchEndpoint hitlessEnv sampleSearch).calls = [.search (expectedService "Beta" 0 (-3))]
    ∧ (∀ h ∈ returnedHits hitlessResult, hitSource h ≠ none)
    ∧ (searchEndpoint hitlessEnv sampleSearch).result = .error nilDereference :=
  ⟨rfl, rfl, by decide, rfl⟩

/-- C10 as amended: when the engine call succeeds, the projection loop ends for
every hit list. If the result has a hits object and every hit has a source, the
answer is 200 and `documents` is a JSON array (never null, empty for zero hits)
with exactly one entry per hit, whether or not the sources decode; if the
result has no hits object, or some hit is nil or has no source, the handler
ends in a nil pointer dereference. -/
theorem projection_loop_total (env : Env) (c : Context) (svc : SearchService)
    (r : SearchResult) (hcall : (searchEndpoint env c).calls = [.search svc])
    (hdo : env.searchDo svc = .ok r) :
    (∀ hs, r.Hits = some hs → (∀ h ∈ hs.Hits, hitSource h ≠ none) →
      ∃ docs : List Json,
        (searchEndpoint env c).result =
          .ok { code := 200,
                body := some (.obj [("time", .str (Sprintf_d r.TookInMillis)),
                  ("hits", .str (Sprintf_d hs.TotalHits)), ("documents", .arr docs)]) }
        ∧ docs.length = hs.Hits.length)
    ∧ (∀ hs, r.Hits = some hs → (∃ h ∈ hs.Hits, hitSource h = none) →
        (searchEndpoint env c).result = .error nilDereference)
    ∧ (r.Hits = none → (searchEndpoint env c).result = .error nilDereference) := by
  obtain ⟨hq, hsvc⟩ := searchEndpoint_call_inv env c svc hcall
  refine ⟨?_, ?_, ?_⟩
  · intro hs hhits hsrc
    refine ⟨(hs.Hits.map (decodeHit env)).map DocumentResponse.toJson, ?_, by simp⟩
    rw [searchEndpoint_all_sources env c svc r hs hcall hdo hhits hsrc]
    rfl
  · intro hs hhits hnil
    subst hsvc
    rw [searchEndpoint_engine_ok env c r hs hq hdo hhits,
      projectHits_of_nil_source env _ _ hnil]
  · intro hnone
    subst hsvc
    exact searchEndpoint_no_hits_object env c r hq hdo hnone

/-- Witness of the amended C10: the sample result, whose first hit does not
decode, gives two entries; a hit without a source and a reply without a hits
object both end the handler in a panic. -/
theorem projection_loop_total_witness :
    (∃ docs : List Json,
        (searchEndpoint sampleEnv sampleSearch).result =
          .ok { code := 200,
                body := some (.obj [("time", .str "3"), ("hits", .str "2"), ("documents", .arr docs)]) }
        ∧ docs.length = 2)
    ∧ (searchEndpoint sampleEnv
          { queryPairs := [("query", "Beta"), ("take", "0")], body := "" }).result =
        .error nilDereference
    ∧ (searchEndpoint hitlessEnv
          { queryPairs := [("query", "Beta"), ("take", "0")], body := "" }).result =
        .error nilDereference :=
  ⟨(projection_loop_total sampleEnv sampleSearch (expectedService "Beta" 0 (-3)) sampleResult
      rfl rfl).1
      { TotalHits := 2, Hits := [some { Source := some oopsSource }, some { Source := some alphaSource }] }
      rfl (by decide),
   (projection_loop_total sampleEnv { queryPairs := [("query", "Beta"), ("take", "0")], body := "" }
      (expectedService "Beta" 0 0) sourcelessResult rfl rfl).2.1
      { TotalHits := 1, Hits := [some { Source := none }] } rfl (by decide),
   (projection_loop_total hitlessEnv { queryPairs := [("query", "Beta"), ("take", "0")], body := "" }
      (expectedService "Beta" 0 0) hitlessResult rfl rfl).2.2 rfl⟩

/-! ## The ingestion endpoint -/

/-- C4, refuted on two submissions with an identifier source that returns the
same value twice: the handler sends one bulk write whose two index operations
carry the same id, and answers 200; nothing in it checks the ids. -/
theorem repeated_identifier_is_sent :
    repeatingEnv.bindJSON samplePost.body =
      some [{ Title := "Alpha", Content := "Beta Gamma" }, { Title := "Alpha", Content := "Beta Gamma" }]
    ∧ (createDocumentsEndpoint repeatingEnv samplePost).calls =
        [.bulk
          { index := "documents", typ := "document",
            requests :=
              [{ id := "dQRcZ-mgR",
                 doc := some { ID := "dQRcZ-mgR", Title := "Alpha", CreatedAt := ⟨1000⟩,
                               Content := "Beta Gamma" } },
               { id := "dQRcZ-mgR",
                 doc := some { ID := "dQRcZ-mgR", Title := "Alpha", CreatedAt := ⟨1001⟩,
                               Content := "Beta Gamma" } }] }]
    ∧ ¬ (((bulkOf repeatingEnv
            [{ Title := "Alpha", Content := "Beta Gamma" },
             { Title := "Alpha", Content := "Beta Gamma" }]).requests.map (fun r => r.id)).Nodup)
    ∧ (createDocumentsEndpoint repeatingEnv samplePost).result = .ok { code := 200, body := none } :=
  ⟨rfl, rfl, by decide, rfl⟩

/-- C4 as amended: for a body that binds to N submissions, `createDocumentsEndpoint`
makes exactly one engine call, a bulk write on index `documents` and type
`document` with exactly N index operations in submission order; the i-th
operation carries a document with the title and content of the i-th
submission and is tagged with the `id` of that document, which is the value
returned by the i-th call of `shortid.MustGenerate` in the request. The list of
the N ids is the list of those N returned values, so the ids are pairwise
distinct exactly when the returned values are. -/
theorem createDocumentsEndpoint_bulk_shape (env : Env) (c : Context)
    (docs : List DocumentRequest) (hbind : env.bindJSON c.body = some docs) :
    ∃ bulk : BulkService,
      (createDocumentsEndpoint env c).calls = [.bulk bulk]
      ∧ bulk.index = "documents" ∧ bulk.typ = "document"
      ∧ bulk.requests.length = docs.length
      ∧ (∀ (i : Nat) (d : DocumentRequest), docs[i]? = some d →
          ∃ doc : Document,
            bulk.requests[i]? = some { id := doc.ID, doc := some doc }
            ∧ doc.Title = d.Title ∧ doc.Content = d.Content
            ∧ doc.ID = env.mustGenerate i ∧ doc.CreatedAt = env.now i)
      ∧ bulk.requests.map (fun r => r.id) = (List.range docs.length).map env.mustGenerate
      ∧ ((bulk.requests.map (fun r => r.id)).Nodup ↔
          ((List.range docs.length).map env.mustGenerate).Nodup) := by
  have hids : (bulkOf env docs).requests.map (fun r => r.id) =
      (List.range docs.length).map env.mustGenerate := by
    rw [bulkOf_eq]
    simp only
    rw [List.map_map, List.range_eq_range', ← List.enumFrom_map_fst 0 docs, List.map_map]
    rfl
  refine ⟨bulkOf env docs, createDocumentsEndpoint_calls env c docs hbind, ?_, ?_, ?_, ?_,
    hids, by rw [hids]⟩
  · rw [bulkOf_eq]
  · rw [bulkOf_eq]
  · rw [bulkOf_eq]
    simp
  · intro i d hd
    refine ⟨{ ID := env.mustGenerate i, Title := d.Title, CreatedAt := env.now i,
              Content := d.Content }, ?_, rfl, rfl, rfl, rfl⟩
    rw [bulkOf_eq]
    simp [List.getElem?_map, List.getElem?_enumFrom, hd, indexRequestOf]

/-- Witness of the amended C4 on a body that binds to two submissions, with an
identifier source that returns two different values. -/
theorem createDocumentsEndpoint_bulk_shape_witness :
    ∃ bulk : BulkService,
      (createDocumentsEndpoint sampleEnv samplePost).calls = [.bulk bulk]
      ∧ bulk.index = "documents" ∧ bulk.typ = "document"
      ∧ bulk.requests.length = 2
      ∧ bulk.requests.map (fun r => r.id) = ["doc-0", "doc-1"]
      ∧ (bulk.requests.map (fun r => r.id)).Nodup := by
  obtain ⟨bulk, h1, h2, h3, h4, -, h6, h7⟩ :=
    createDocumentsEndpoint_bulk_shape sampleEnv samplePost
      [{ Title := "Alpha", Content := "Beta Gamma" }, { Title := "Alpha", Content := "Beta Gamma" }]
      rfl
  exact ⟨bulk, h1, h2, h3, h4, h6, h7.mpr (by decide)⟩

/-- C5, refuted on the empty array: the handler still runs the bulk call, with no
request in it, and the elastic client refuses such a batch, so the answer is
500 with the generic message and not 200. -/
theorem empty_batch_can_fail :
    sampleEnv.bindJSON emptyPost.body = some []
    ∧ (createDocumentsEndpoint sampleEnv emptyPost).calls =
        [.bulk { index := "documents", typ := "document", requests := [] }]
    ∧ (createDocumentsEndpoint sampleEnv emptyPost).result =
        .ok { code := 500, body := some (.obj [("error", .str "Failed to create documents")]) }
    ∧ (createDocumentsEndpoint sampleEnv emptyPost).result ≠ .ok { code := 200, body := none } := by
  refine ⟨rfl, rfl, rfl, ?_⟩
  intro h
  have h2 : (createDocumentsEndpoint sampleEnv emptyPost).result =
      .ok { code := 500, body := some (.obj [("error", .str "Failed to create documents")]) } := rfl
  rw [h2] at h
  simp at h

/-- C5 as amended: for a body that binds to the empty array the handler makes one
bulk call that carries no index operation, so no document is submitted; the
answer is 200 without a body when that call returns no error, and 500 with
`{"error": "Failed to create documents"}` when it returns one. -/
theorem createDocumentsEndpoint_empty_batch (env : Env) (c : Context)
    (hbind : env.bindJSON c.body = some []) :
    (createDocumentsEndpoint env c).calls =
        [.bulk { index := "documents", typ := "document", requests := [] }]
    ∧ (env.bulkDo { index := "documents", typ := "document", requests := [] } = none →
        (createDocumentsEndpoint env c).result = .ok { code := 200, body := none })
    ∧ (∀ e, env.bulkDo { index := "documents", typ := "document", requests := [] } = some e →
        (createDocumentsEndpoint env c).result =
          .ok { code := 500, body := some (.obj [("error", .str "Failed to create documents")]) }) := by
  have hb : bulkOf env [] = { index := "documents", typ := "document", requests := [] } := rfl
  refine ⟨?_, ?_, ?_⟩
  · rw [createDocumentsEndpoint_calls env c [] hbind, hb]
  · intro hok
    rw [← hb] at hok
    rw [createDocumentsEndpoint_engine_ok env c [] hbind hok]
    rfl
  · intro e herr
    rw [← hb] at herr
    rw [createDocumentsEndpoint_engine_error env c [] e hbind herr]
    rfl

/-- Witness of the amended C5: no index operation is sent; the answer is 200 with
an engine that accepts the empty batch and 500 with one that refuses it. -/
theorem createDocumentsEndpoint_empty_batch_witness :
    (createDocumentsEndpoint { sampleEnv with bulkDo := fun _ => none } emptyPost).calls =
        [.bulk { index := "documents", typ := "document", requests := [] }]
    ∧ (createDocumentsEndpoint { sampleEnv with bulkDo := fun _ => none } emptyPost).result =
        .ok { code := 200, body := none }
    ∧ (createDocumentsEndpoint sampleEnv emptyPost).result =
        .ok { code := 500, body := some (.obj [("error", .str "Failed to create documents")]) } :=
  have h := createDocumentsEndpoint_empty_batch { sampleEnv with bulkDo := fun _ => none }
    emptyPost rfl
  ⟨h.1, h.2.1 rfl,
    (createDocumentsEndpoint_empty_batch sampleEnv emptyPost rfl).2.2
      "elastic: No bulk actions to commit" rfl⟩

/-! ## Error handling on both endpoints -/

/-- C6: a body that does not bind is answered 400 `{"error": "Malformed request
body"}` and a missing or empty query 400 `{"error": "Query not specified"}`,
both without any engine call; and whenever either endpoint answers with a 4xx
status, the list of engine calls is empty. -/
theorem client_error_reaches_no_engine (env : Env) (c : Context) :
    (env.bindJSON c.body = none →
      createDocumentsEndpoint env c =
        { result := .ok { code := 400, body := some (.obj [("error", .str "Malformed request body")]) },
          calls := [] })
    ∧ (c.GetQuery "query" = none ∨ c.GetQuery "query" = some "" →
      searchEndpoint env c =
        { result := .ok { code := 400, body := some (.obj [("error", .str "Query not specified")]) },
          calls := [] })
    ∧ (∀ (route : Route) (r : Response), (serve env route c).result = .ok r →
        400 ≤ r.code → r.code < 500 → (serve env route c).calls = []) := by
  refine ⟨?_, ?_, ?_⟩
  · intro hbind
    rw [createDocumentsEndpoint_malformed env c hbind]
    rfl
  · intro hq
    rw [searchEndpoint_no_query env c ((Query_eq_empty_iff c "query").mpr hq)]
    rfl
  · intro route r hr h4 h5
    cases route with
    | postDocuments =>
      simp only [serve] at hr ⊢
      cases hbind : env.bindJSON c.body with
      | none => rw [createDocumentsEndpoint_malformed env c hbind]
      | some docs =>
        exfalso
        cases hdo : env.bulkDo (bulkOf env docs) with
        | none =>
          rw [createDocumentsEndpoint_engine_ok env c docs hbind hdo] at hr
          injection hr with hr
          subst hr
          simp [Status, StatusOK] at h4
        | some e =>
          rw [createDocumentsEndpoint_engine_error env c docs e hbind hdo] at hr
          injection hr with hr
          subst hr
          simp [errorResponse, JSON, StatusInternalServerError] at h5
    | getSearch =>
      simp only [serve] at hr ⊢
      by_cases hq : c.Query "query" = ""
      · rw [searchEndpoint_no_query env c hq]
      · exfalso
        rcases searchEndpoint_result_cases env c hq with h500 | ⟨p, hp⟩ | ⟨body, hb⟩
        · rw [h500] at hr
          injection hr with hr
          subst hr
          simp [errorResponse, JSON, StatusInternalServerError] at h5
        · rw [hp] at hr
          cases hr
        · rw [hb] at hr
          injection hr with hr
          subst hr
          simp [JSON, StatusOK] at h4

/-- Witness of C6 on a body that is not an array and on a search without `query`. -/
theorem client_error_reaches_no_engine_witness :
    (serve sampleEnv .postDocuments malformedPost).calls = []
    ∧ (serve sampleEnv .getSearch noQuerySearch).calls = [] :=
  ⟨(client_error_reaches_no_engine sampleEnv malformedPost).2.2 .postDocuments
      (errorResponse 400 "Malformed request body") rfl (by decide) (by decide),
   (client_error_reaches_no_engine sampleEnv noQuerySearch).2.2 .getSearch
      (errorResponse 400 "Query not specified") rfl (by decide) (by decide)⟩

/-- C7: when a valid request leads to an engine call that returns an error, the
answer is 500 with the fixed body of the route, `{"error": "Failed to create
documents"}` on POST /documents and `{"error": "Something went wrong"}` on
GET /search; two such runs give the same answer whatever the two errors are,
and the handler makes exactly one engine call. -/
theorem engine_error_is_generic (env₁ env₂ : Env) (route : Route) (c₁ c₂ : Context)
    (e₁ e₂ : String) (h₁ : engineFailsWith env₁ route c₁ e₁)
    (h₂ : engineFailsWith env₂ route c₂ e₂) :
    (serve env₁ route c₁).result =
        .ok { code := 500, body := some (.obj [("error", .str (genericMessage route))]) }
    ∧ (serve env₂ route c₂).result = (serve env₁ route c₁).result
    ∧ (serve env₁ route c₁).calls.length = 1 := by
  cases route with
  | postDocuments =>
    obtain ⟨docs₁, hb₁, he₁⟩ := h₁
    obtain ⟨docs₂, hb₂, he₂⟩ := h₂
    simp only [serve]
    rw [createDocumentsEndpoint_engine_error env₁ c₁ docs₁ e₁ hb₁ he₁,
      createDocumentsEndpoint_engine_error env₂ c₂ docs₂ e₂ hb₂ he₂,
      createDocumentsEndpoint_calls env₁ c₁ docs₁ hb₁]
    exact ⟨rfl, rfl, rfl⟩
  | getSearch =>
    obtain ⟨hq₁, he₁⟩ := h₁
    obtain ⟨hq₂, he₂⟩ := h₂
    simp only [serve]
    rw [searchEndpoint_engine_error env₁ c₁ e₁ hq₁ he₁,
      searchEndpoint_engine_error env₂ c₂ e₂ hq₂ he₂,
      searchEndpoint_calls env₁ c₁ hq₁]
    exact ⟨rfl, rfl, rfl⟩

/-- Witness of C7: on POST /documents an unreachable engine and the refusal of an
empty batch are two different errors with the same answer, and on GET /search
an unreachable engine gives the fixed answer of that route. -/
theorem engine_error_is_generic_witness :
    ((serve downEnv .postDocuments samplePost).result =
        .ok { code := 500, body := some (.obj [("error", .str "Failed to create documents")]) }
      ∧ (serve sampleEnv .postDocuments emptyPost).result =
          (serve downEnv .postDocuments samplePost).result
      ∧ (serve downEnv .postDocuments samplePost).calls.length = 1)
    ∧ ((serve downEnv .getSearch sampleSearch).result =
        .ok { code := 500, body := some (.obj [("error", .str "Something went wrong")]) }
      ∧ (serve downEnv .getSearch sampleSearch).result =
          (serve downEnv .getSearch sampleSearch).result
      ∧ (serve downEnv .getSearch sampleSearch).calls.length = 1) :=
  ⟨engine_error_is_generic downEnv sampleEnv .postDocuments samplePost emptyPost
      "dial tcp: connection refused" "elastic: No bulk actions to commit"
      ⟨_, rfl, rfl⟩ ⟨_, rfl, rfl⟩,
   engine_error_is_generic downEnv downEnv .getSearch sampleSearch sampleSearch
      "dial tcp: connection refused" "dial tcp: connection refused"
      ⟨by decide, rfl⟩ ⟨by decide, rfl⟩⟩

end SearchApi
